import Mathlib

/-!
Verification development for the declaration extractor `src/bin/decls.cc`.

The extractor parses one translation unit with an external front end
(clang, via libtooling), walks the semantic tree with a
`RecursiveASTVisitor`, collects one `DeclInfo` per visited declaration
that lies in the main file, and prints a textual report.

The shallow embedding below models the tree handed over by the front end
as a rose tree of declaration nodes.  Each node carries the data the
extractor inspects: its shape (which C++ class the node is an instance
of, together with the strings the pretty printers would return), its
source location (`none` models an invalid `SourceLocation`), and the
front end's per-occurrence `isThisDeclarationADefinition` flag.
-/

namespace Decls

/-- A valid source location: file name plus 1-based line and column, as
answered by the `SourceManager` for a node's (spelling) location. -/
structure Loc where
  file : String
  line : Nat
  col : Nat
deriving DecidableEq, Repr

/-- Tag of a record declaration, as answered by `RecordDecl::isStruct` /
`isUnion`; `classTag` is every remaining case (the final `: "class "`
branch in `getDeclarationString`). -/
inductive RecordTag where
  | structTag
  | unionTag
  | classTag
deriving DecidableEq, Repr

/-- Shape of one declaration node: which `dyn_cast` in `decls.cc`
succeeds on it, together with the strings the front end's printers
(`QualType::getAsString`, `NamedDecl::getNameAsString`) return for it.
`other` covers every node kind outside the seven dispatched classes and
carries `getDeclKindName()` plus the name.  A function's parameter list
is the list of `(type text, name)` pairs of its `ParmVarDecl`s. -/
inductive DeclData where
  | func (retType name : String) (params : List (String × String))
  | var (type name : String)
  | typedefDecl (underlying name : String)
  | record (tag : RecordTag) (name : String)
  | enum (name : String)
  | field (type name : String)
  | enumConst (name : String) (hasInit : Bool)
  | other (rawKind name : String)
deriving DecidableEq, Repr

/-- One declaration node of the semantic tree, as the extractor sees it:
its shape, its location (`none` models `SourceLocation::isValid() ==
false`), and the front end's per-occurrence defining-instance flag
(`isThisDeclarationADefinition`). -/
structure NodeData where
  data : DeclData
  loc : Option Loc
  definingFlag : Bool
deriving DecidableEq, Repr

mutual
/-- A node of the semantic tree together with its child declarations, in
document order. -/
inductive DeclTree : Type where
  | node : NodeData → DeclForest → DeclTree

/-- An ordered list of sibling subtrees. -/
inductive DeclForest : Type where
  | nil : DeclForest
  | cons : DeclTree → DeclForest → DeclForest
end

/-- The record type `DeclInfo` of `decls.cc`. -/
structure DeclInfo where
  kind : String
  declaration : String
  is_definition : Bool
  line : Nat
  column : Nat
deriving DecidableEq, Repr

/-- Model of `DeclVisitor::shouldVisitDecl`: the location must be valid
and `SourceManager::isInMainFile` must hold for it. -/
def shouldVisitDecl (mainFile : String) (loc : Option Loc) : Bool :=
  match loc with
  | none => false
  | some l => l.file == mainFile

/-- Model of `Decl::getDeclKindName` for the node shapes the extractor
distinguishes. -/
def getDeclKindName : DeclData → String
  | .func .. => "Function"
  | .var .. => "Var"
  | .typedefDecl .. => "Typedef"
  | .record .. => "Record"
  | .enum .. => "Enum"
  | .field .. => "Field"
  | .enumConst .. => "EnumConstant"
  | .other rawKind _ => rawKind

/-- Model of `DeclVisitor::getFunctionSignature`: return type, name, and
the parameter list; an empty list prints as the literal `void`, a
parameter prints as its type text followed by a space and the name when
the name is nonempty. -/
def getFunctionSignature (retType name : String) (params : List (String × String)) :
    String :=
  retType ++ " " ++ name ++ "(" ++
    (if params.isEmpty then "void"
     else String.intercalate ", "
       (params.map (fun p => if p.2 = "" then p.1 else p.1 ++ " " ++ p.2))) ++ ")"

/-- Model of `DeclVisitor::getDeclarationString`: the `dyn_cast` chain
over the node shape. -/
def getDeclarationString : DeclData → String
  | .func retType name params => getFunctionSignature retType name params ++ ";"
  | .var type name => type ++ " " ++ name ++ ";"
  | .typedefDecl underlying name => "typedef " ++ underlying ++ " " ++ name ++ ";"
  | .record tag name =>
      (match tag with
       | .structTag => "struct "
       | .unionTag => "union "
       | .classTag => "class ") ++
      (if name = "" then "<anonymous>" else name) ++ ";"
  | .enum name => "enum " ++ (if name = "" then "<anonymous>" else name) ++ ";"
  | .field type name => type ++ " " ++ name ++ ";"
  | .enumConst name hasInit => if hasInit then name ++ " = <value>" else name
  | .other rawKind name => rawKind ++ ": " ++ name

/-- Model of `DeclVisitor::isDefinition`: for function, record and enum
nodes the front end's `isThisDeclarationADefinition` answer for this
occurrence; `false` for every other shape. -/
def isDefinition (d : DeclData) (definingFlag : Bool) : Bool :=
  match d with
  | .func .. => definingFlag
  | .record .. => definingFlag
  | .enum .. => definingFlag
  | _ => false

/-- Model of `SourceManager::getSpellingLineNumber` on a node's
location; only ever used behind the `shouldVisitDecl` guard, where the
location is valid. -/
def spellingLine : Option Loc → Nat
  | some l => l.line
  | none => 0

/-- Model of `SourceManager::getSpellingColumnNumber`; see
`spellingLine`. -/
def spellingColumn : Option Loc → Nat
  | some l => l.col
  | none => 0

/-- The `DeclInfo` value that `DeclVisitor::addDeclaration` constructs
for a node once the `shouldVisitDecl` guard has passed. -/
def mkInfo (n : NodeData) : DeclInfo :=
  { kind := getDeclKindName n.data
  , declaration := getDeclarationString n.data
  , is_definition := isDefinition n.data n.definingFlag
  , line := spellingLine n.loc
  , column := spellingColumn n.loc }

/-- Model of `DeclVisitor::addDeclaration`: an early return (producing
nothing) when `shouldVisitDecl` fails, otherwise one `DeclInfo` pushed
onto the collected sequence. -/
def addDeclaration (mainFile : String) (n : NodeData) : Option DeclInfo :=
  if shouldVisitDecl mainFile n.loc then some (mkInfo n) else none

/-- The seven `Visit...Decl` callbacks of `DeclVisitor`
(`VisitFunctionDecl`, `VisitVarDecl`, `VisitTypedefDecl`,
`VisitRecordDecl`, `VisitEnumDecl`, `VisitFieldDecl`,
`VisitEnumConstantDecl`): each calls `addDeclaration` on its node. The
visitor declares no callback for any other node kind, so a node of any
other shape contributes nothing when traversed. -/
def visitCallbacks (mainFile : String) (n : NodeData) : List DeclInfo :=
  match n.data with
  | .func .. => (addDeclaration mainFile n).toList
  | .var .. => (addDeclaration mainFile n).toList
  | .typedefDecl .. => (addDeclaration mainFile n).toList
  | .record .. => (addDeclaration mainFile n).toList
  | .enum .. => (addDeclaration mainFile n).toList
  | .field .. => (addDeclaration mainFile n).toList
  | .enumConst .. => (addDeclaration mainFile n).toList
  | .other .. => []

/-- True exactly for the seven node shapes that have a `Visit...Decl`
callback in `DeclVisitor`. -/
def hasVisitMethod : DeclData → Bool
  | .other .. => false
  | _ => true

mutual
/-- Model of `RecursiveASTVisitor::TraverseDecl` as instantiated by
`DeclVisitor`: a depth-first pre-order walk that fires the matching
`Visit...Decl` callback on each node (appending to the collected
sequence) and then traverses the node's children in order. -/
def traverseDecl (mainFile : String) : DeclTree → List DeclInfo
  | .node n ch => visitCallbacks mainFile n ++ traverseForest mainFile ch

/-- Traversal of a list of sibling subtrees, left to right. -/
def traverseForest (mainFile : String) : DeclForest → List DeclInfo
  | .nil => []
  | .cons t ts => traverseDecl mainFile t ++ traverseForest mainFile ts
end

mutual
/-- The depth-first pre-order listing of all nodes of a tree. -/
def preorderDecls : DeclTree → List NodeData
  | .node n ch => n :: preorderForest ch

/-- Pre-order listing of all nodes of a forest. -/
def preorderForest : DeclForest → List NodeData
  | .nil => []
  | .cons t ts => preorderDecls t ++ preorderForest ts
end

/-- A node actually produces a record iff it has a `Visit...Decl`
callback and passes `shouldVisitDecl`. -/
def visitedEligible (mainFile : String) (n : NodeData) : Bool :=
  hasVisitMethod n.data && shouldVisitDecl mainFile n.loc

/-- The nodes of a tree whose location is valid and lies in the main
file, in pre-order — the "eligible nodes" of the spec, independent of
node kind. -/
def eligibleDecls (mainFile : String) (t : DeclTree) : List NodeData :=
  (preorderDecls t).filter (fun n => shouldVisitDecl mainFile n.loc)

/-- The loop test of the report loop in `main`: a record is printed
unless `DefinitionsOnly` is set and the record is not a definition
(`if (DefinitionsOnly && !decl.is_definition) continue;`). -/
def keptByFilter (definitionsOnly : Bool) (d : DeclInfo) : Bool :=
  !(definitionsOnly && !d.is_definition)

/-- One printed report line of `main`:
`<declaration>  // <definition-or-declaration> at <line>:<column>`. -/
def renderLine (d : DeclInfo) : String :=
  d.declaration ++ "  // " ++
    (if d.is_definition then "definition" else "declaration") ++
    " at " ++ toString d.line ++ ":" ++ toString d.column

/-- The report lines printed by the loop of `main`, in collection
order. -/
def reportLines (decls : List DeclInfo) (definitionsOnly : Bool) : List String :=
  (decls.filter (keptByFilter definitionsOnly)).map renderLine

/-- The header `main` prints when the source path list is nonempty:
the banner for the first source path, followed by a blank line. -/
def headerText : List String → String
  | [] => ""
  | f :: _ => "=== Declarations from " ++ f ++ " ===\n\n"

/-- The trailing summary line of `main`: a blank line and
`=== Total: <N> items ===`, where `N` is `Decls.size()` — the count of
all collected records, taken before any filtering. -/
def totalText (decls : List DeclInfo) : String :=
  "\n=== Total: " ++ toString decls.length ++ " items ===\n"

/-- Everything `main` writes to standard output after the tool has run:
header, the filtered report lines, and the unfiltered total.  The
`ShowMacros` flag is parsed by the option parser but never read, so it
is accepted here and ignored. -/
def mainOutput (sources : List String) (decls : List DeclInfo)
    (definitionsOnly showMacros : Bool) : String :=
  headerText sources
    ++ String.join ((reportLines decls definitionsOnly).map (fun s => s ++ "\n"))
    ++ totalText decls

/-- Outcome of handing the translation unit to the front end: either no
tree could be built at all, or a (possibly error-recovered) tree rooted
at the translation-unit node of the named main file. -/
inductive ParseOutcome where
  | parseFailure
  | tree (mainFile : String) (t : DeclTree) (recoveredErrors : Bool)

/-- Modelled from the spec: the external front end behind
`ClangTool::run` is out of scope of the repository (spec §1, §4.1); per
the §4.1 contract the run returns `0` whenever a tree was produced —
recoverable source errors included — and a non-zero result when no tree
could be built at all, in which case no consumer runs and the collected
sequence stays empty.  When a tree is produced the consumer's
`HandleTranslationUnit` traverses it from the root, filling the
sequence. -/
def toolRun : ParseOutcome → Int × List DeclInfo
  | .parseFailure => (1, [])
  | .tree mainFile t _ => (0, traverseDecl mainFile t)

/-- The command-line state `main` starts from: whether
`CommonOptionsParser::create` succeeded, the source path list, and the
two boolean flags. -/
structure CmdOpts where
  argsOk : Bool
  sources : List String
  definitionsOnly : Bool
  showMacros : Bool
deriving DecidableEq, Repr

/-- Observable result of one process run: the bytes written to standard
output and the exit status. -/
structure ProcResult where
  stdOut : String
  exitCode : Int
deriving DecidableEq, Repr

/-- Model of `main` in `decls.cc`: when option parsing fails the process
prints the error to the error stream only and returns `1`; otherwise the
tool runs, the report (header, filtered lines, unfiltered total) is
printed unconditionally, and the tool-run result is returned. -/
def mainRun (opts : CmdOpts) (outcome : ParseOutcome) : ProcResult :=
  if !opts.argsOk then
    { stdOut := "", exitCode := 1 }
  else
    let r := toolRun outcome
    { stdOut := mainOutput opts.sources r.2 opts.definitionsOnly opts.showMacros
    , exitCode := r.1 }

/-- The callbacks fire exactly on nodes that have a visitor and pass the
`shouldVisitDecl` guard, producing the constructed record. -/
theorem visitCallbacks_eq (mainFile : String) (n : NodeData) :
    visitCallbacks mainFile n =
      if visitedEligible mainFile n then [mkInfo n] else [] := by
  have haddf (h : shouldVisitDecl mainFile n.loc = false) :
      (addDeclaration mainFile n).toList = [] := by
    simp [addDeclaration, h]
  have haddt (h : shouldVisitDecl mainFile n.loc = true) :
      (addDeclaration mainFile n).toList = [mkInfo n] := by
    simp [addDeclaration, h]
  cases hd : n.data <;>
    simp only [visitCallbacks, hd, visitedEligible, hasVisitMethod,
      Bool.true_and, Bool.false_and, if_false, Bool.false_eq_true] <;>
    first
      | rfl
      | (cases hsv : shouldVisitDecl mainFile n.loc
         · simp only [if_false, Bool.false_eq_true]; exact haddf hsv
         · simp only [if_true]; exact haddt hsv)

mutual
/-- The traversal of a tree produces exactly one record, in pre-order,
for each node that has a visitor callback and lies in the main file. -/
theorem traverseDecl_eq_filter (mainFile : String) (t : DeclTree) :
    traverseDecl mainFile t
      = ((preorderDecls t).filter (visitedEligible mainFile)).map mkInfo := by
  cases t with
  | node n ch =>
    have ih := traverseForest_eq_filter mainFile ch
    rw [traverseDecl, preorderDecls, List.filter_cons, ih,
      visitCallbacks_eq]
    cases h : visitedEligible mainFile n
    · simp
    · simp

/-- Forest version of `traverseDecl_eq_filter`. -/
theorem traverseForest_eq_filter (mainFile : String) (ts : DeclForest) :
    traverseForest mainFile ts
      = ((preorderForest ts).filter (visitedEligible mainFile)).map mkInfo := by
  cases ts with
  | nil => rfl
  | cons t ts' =>
    have ih1 := traverseDecl_eq_filter mainFile t
    have ih2 := traverseForest_eq_filter mainFile ts'
    rw [traverseForest, preorderForest, List.filter_append, List.map_append,
      ih1, ih2]
end

/-- A leaf declaration: a node with no children. -/
def leaf (n : NodeData) : DeclTree := .node n .nil

/-- Shorthand for the forest of a list of subtrees. -/
def forest : List DeclTree → DeclForest
  | [] => .nil
  | t :: ts => .cons t (forest ts)

/-- The semantic tree of the spec's §8.6 scenario file `test.c`:

`struct connection;`
`typedef struct connection CONNECTION;`
`struct connection { int fd; CONNECTION *next; };`
`int f(void);`
`int f(void) { return 0; }`

Children of the (location-less) translation-unit root, in document
order: the forward record declaration, the typedef, the record
definition containing its two field nodes, and the two function nodes —
the first a prototype, the second the defining occurrence. -/
def scenarioTree : DeclTree :=
  .node ⟨.other "TranslationUnit" "", none, false⟩ (forest
    [ leaf ⟨.record .structTag "connection", some ⟨"test.c", 1, 8⟩, false⟩
    , leaf ⟨.typedefDecl "struct connection" "CONNECTION", some ⟨"test.c", 2, 27⟩, false⟩
    , .node ⟨.record .structTag "connection", some ⟨"test.c", 3, 8⟩, true⟩ (forest
        [ leaf ⟨.field "int" "fd", some ⟨"test.c", 3, 25⟩, false⟩
        , leaf ⟨.field "CONNECTION *" "next", some ⟨"test.c", 3, 41⟩, false⟩ ])
    , leaf ⟨.func "int" "f" [], some ⟨"test.c", 4, 5⟩, false⟩
    , leaf ⟨.func "int" "f" [], some ⟨"test.c", 5, 5⟩, true⟩ ])

/-- A translation unit whose only child is an `EmptyDecl` (a stray `;`
at file scope): a declaration node with a valid main-file location but
no visitor callback. -/
def emptyDeclTree : DeclTree :=
  .node ⟨.other "TranslationUnit" "", none, false⟩
    (forest [leaf ⟨.other "Empty" "", some ⟨"main.c", 1, 1⟩, false⟩])

/-- A translation unit whose only child is a named namespace — a named
declaration node outside the seven dispatched kinds, with a valid
main-file location. -/
def namespaceTree : DeclTree :=
  .node ⟨.other "TranslationUnit" "", none, false⟩
    (forest [leaf ⟨.other "Namespace" "n", some ⟨"main.cc", 1, 11⟩, false⟩])

/-- A translation unit declaring a function and then defining it:
`int f(void);` on line 1, `int f(void) { return 0; }` on line 2. -/
def declareDefineTree : DeclTree :=
  .node ⟨.other "TranslationUnit" "", none, false⟩ (forest
    [ leaf ⟨.func "int" "f" [], some ⟨"f.c", 1, 5⟩, false⟩
    , leaf ⟨.func "int" "f" [], some ⟨"f.c", 2, 5⟩, true⟩ ])

/-- The shapes the `dyn_cast` chain of `DeclVisitor::isDefinition`
recognises: function, record and enum nodes. -/
def isFuncRecordEnum : DeclData → Bool
  | .func .. => true
  | .record .. => true
  | .enum .. => true
  | _ => false

/-- A small collected sequence: a function prototype followed by its
defining occurrence. -/
def sampleDecls : List DeclInfo :=
  [ ⟨"Function", "int f(void);", false, 1, 5⟩
  , ⟨"Function", "int f(void);", true, 2, 5⟩ ]

/-- C1, counterexample: a translation unit whose only main-file
declaration is an `EmptyDecl` (a stray file-scope `;`).  The node's
location is valid and lies in the main file, so it is an eligible
declaration node, yet the traversal produces no record for it, because
`DeclVisitor` declares no `Visit` callback for its kind: the number of
records (0) differs from the number of eligible nodes (1). -/
theorem C1_cex :
    (traverseDecl "main.c" emptyDeclTree).length = 0
    ∧ (eligibleDecls "main.c" emptyDeclTree).length = 1 := by decide

/-- C1 (amended): for every declaration node of one of the seven
dispatched kinds (function, variable, typedef, record, enum, field,
enumerator) whose location lies in the main file, the traversal produces
exactly one record, and the records appear in depth-first pre-order of
the semantic tree; the number of records equals the number of such
eligible dispatched nodes.  Nodes of any other kind never produce a
record. -/
theorem C1_thm (mainFile : String) (t : DeclTree) :
    traverseDecl mainFile t
        = ((preorderDecls t).filter (visitedEligible mainFile)).map mkInfo
    ∧ (traverseDecl mainFile t).length
        = ((preorderDecls t).filter (visitedEligible mainFile)).length := by
  refine ⟨traverseDecl_eq_filter mainFile t, ?_⟩
  rw [traverseDecl_eq_filter mainFile t, List.length_map]

/-- C1, witness: the amended statement evaluated on the §8.6 scenario
tree. -/
theorem C1_witness :
    traverseDecl "test.c" scenarioTree
        = ((preorderDecls scenarioTree).filter (visitedEligible "test.c")).map mkInfo
    ∧ (traverseDecl "test.c" scenarioTree).length
        = ((preorderDecls scenarioTree).filter (visitedEligible "test.c")).length :=
  C1_thm "test.c" scenarioTree

/-- C2: every collected record originates from a node whose location is
valid and lies in the main file; a node with an invalid (absent)
location, or with a location in any other file, never produces a
record. -/
theorem C2_thm (mainFile : String) (t : DeclTree) :
    (∀ info ∈ traverseDecl mainFile t,
        ∃ n, n ∈ preorderDecls t ∧ shouldVisitDecl mainFile n.loc = true
          ∧ info = mkInfo n)
    ∧ (∀ n : NodeData, n.loc = none → addDeclaration mainFile n = none)
    ∧ (∀ (n : NodeData) (l : Loc), n.loc = some l → l.file ≠ mainFile →
        addDeclaration mainFile n = none) := by
  refine ⟨?_, ?_, ?_⟩
  · intro info hinfo
    rw [traverseDecl_eq_filter] at hinfo
    obtain ⟨n, hn, rfl⟩ := List.mem_map.1 hinfo
    obtain ⟨hmem, helig⟩ := List.mem_filter.1 hn
    refine ⟨n, hmem, ?_, rfl⟩
    exact (Bool.and_eq_true _ _ ▸ helig).2
  · intro n h
    simp [addDeclaration, shouldVisitDecl, h]
  · intro n l h hne
    simp [addDeclaration, shouldVisitDecl, h, hne]

/-- C2, witness: a node with an absent location, and a node located in
an included header, each produce no record. -/
theorem C2_witness :
    addDeclaration "main.c" ⟨.var "int" "x", none, false⟩ = none
    ∧ addDeclaration "main.c" ⟨.var "int" "y", some ⟨"stdio.h", 3, 5⟩, false⟩ = none :=
  ⟨(C2_thm "main.c" emptyDeclTree).2.1 ⟨.var "int" "x", none, false⟩ rfl,
   (C2_thm "main.c" emptyDeclTree).2.2 ⟨.var "int" "y", some ⟨"stdio.h", 3, 5⟩, false⟩
     ⟨"stdio.h", 3, 5⟩ rfl (by decide)⟩

/-- C3: with the definitions-only flag set the emitter prints exactly
the subsequence of the unfiltered report's lines whose record is a
definition, in the same order, and the output of either run ends with
the same trailing total, computed from all collected records before the
filter. -/
theorem C3_thm (decls : List DeclInfo) (sources : List String) (showMacros : Bool) :
    reportLines decls true = (decls.filter (fun d => d.is_definition)).map renderLine
    ∧ reportLines decls false = decls.map renderLine
    ∧ List.Sublist (reportLines decls true) (reportLines decls false)
    ∧ mainOutput sources decls true showMacros
        = headerText sources
          ++ String.join ((reportLines decls true).map (fun s => s ++ "\n"))
          ++ totalText decls
    ∧ mainOutput sources decls false showMacros
        = headerText sources
          ++ String.join ((reportLines decls false).map (fun s => s ++ "\n"))
          ++ totalText decls := by
  have hk1 : keptByFilter true = fun d => d.is_definition := by
    funext d; simp [keptByFilter]
  have hk2 : keptByFilter false = fun _ => true := by
    funext d; simp [keptByFilter]
  have h1 : reportLines decls true
      = (decls.filter (fun d => d.is_definition)).map renderLine := by
    rw [reportLines, hk1]
  have h2 : reportLines decls false = decls.map renderLine := by
    rw [reportLines, hk2, List.filter_true]
  refine ⟨h1, h2, ?_, rfl, rfl⟩
  rw [h1, h2]
  exact (List.filter_sublist decls).map renderLine

/-- C3, witness: the filter statement evaluated on a two-record
sequence. -/
theorem C3_witness :
    reportLines sampleDecls true
        = (sampleDecls.filter (fun d => d.is_definition)).map renderLine
    ∧ reportLines sampleDecls false = sampleDecls.map renderLine
    ∧ List.Sublist (reportLines sampleDecls true) (reportLines sampleDecls false)
    ∧ mainOutput ["f.c"] sampleDecls true false
        = headerText ["f.c"]
          ++ String.join ((reportLines sampleDecls true).map (fun s => s ++ "\n"))
          ++ totalText sampleDecls
    ∧ mainOutput ["f.c"] sampleDecls false false
        = headerText ["f.c"]
          ++ String.join ((reportLines sampleDecls false).map (fun s => s ++ "\n"))
          ++ totalText sampleDecls :=
  C3_thm sampleDecls ["f.c"] false

/-- C4: the definition resolver answers the front end's per-occurrence
defining-instance flag exactly on function, record and enum nodes and
`false` on every other shape; consequently a function declared and then
defined in the same file yields two records, the first a declaration and
the second a definition, in that order. -/
theorem C4_thm :
    (∀ (d : DeclData) (definingFlag : Bool),
        isDefinition d definingFlag = (isFuncRecordEnum d && definingFlag))
    ∧ (traverseDecl "f.c" declareDefineTree).map
          (fun i => (i.declaration, i.is_definition))
        = [("int f(void);", false), ("int f(void);", true)] := by
  refine ⟨?_, by decide⟩
  intro d definingFlag
  cases d <;> cases definingFlag <;> rfl

/-- C5, counterexample: a named namespace node in the main file — a
named declaration outside the seven dispatched kinds, with an eligible
location — produces no record at all, where the claim promises a record
with the generic `Namespace: n` signature. -/
theorem C5_cex :
    shouldVisitDecl "main.cc" (some ⟨"main.cc", 1, 11⟩) = true
    ∧ traverseDecl "main.cc" namespaceTree = [] := by decide

/-- C5 (amended): nodes whose kind is outside the closed dispatch are
silently skipped by the traversal — `DeclVisitor` declares no `Visit`
callback for them, so no record is produced regardless of name and
location; the generic `<raw-kind>: <name>` fallback branch of the
renderer exists but is never reached through the traversal. -/
theorem C5_thm (mainFile rawKind name : String) (loc : Option Loc)
    (definingFlag : Bool) (ch : DeclForest) :
    traverseDecl mainFile (.node ⟨.other rawKind name, loc, definingFlag⟩ ch)
        = traverseForest mainFile ch
    ∧ getDeclarationString (.other rawKind name) = rawKind ++ ": " ++ name := by
  exact ⟨rfl, rfl⟩

/-- C5, witness: the amended statement evaluated on the namespace
node. -/
theorem C5_witness :
    traverseDecl "main.cc"
        (.node ⟨.other "Namespace" "n", some ⟨"main.cc", 1, 11⟩, false⟩ .nil)
        = traverseForest "main.cc" .nil
    ∧ getDeclarationString (.other "Namespace" "n") = "Namespace" ++ ": " ++ "n" :=
  C5_thm "main.cc" "Namespace" "n" (some ⟨"main.cc", 1, 11⟩) false .nil

/-- C6, counterexample: on the §8.6 scenario file the tool does not
produce the six records the claim lists — the struct definition contains
a second field, `CONNECTION *next`, which is also visited and also
produces a record. -/
theorem C6_cex :
    (traverseDecl "test.c" scenarioTree).map
        (fun i => (i.declaration, i.is_definition))
      ≠ [ ("struct connection;", false)
        , ("typedef struct connection CONNECTION;", false)
        , ("struct connection;", true)
        , ("int fd;", false)
        , ("int f(void);", false)
        , ("int f(void);", true) ] := by decide

/-- C6 (amended): on the §8.6 scenario file the tool produces exactly
seven records, in order — the forward `struct connection;` declaration,
the typedef declaration, the `struct connection;` definition, the two
field declarations `int fd;` and `CONNECTION * next;`, the `int
f(void);` declaration and the `int f(void);` definition — and the
reported total is 7. -/
theorem C6_thm :
    (traverseDecl "test.c" scenarioTree).map
        (fun i => (i.declaration, i.is_definition))
      = [ ("struct connection;", false)
        , ("typedef struct connection CONNECTION;", false)
        , ("struct connection;", true)
        , ("int fd;", false)
        , ("CONNECTION * next;", false)
        , ("int f(void);", false)
        , ("int f(void);", true) ]
    ∧ (traverseDecl "test.c" scenarioTree).length = 7
    ∧ totalText (traverseDecl "test.c" scenarioTree)
        = "\n=== Total: 7 items ===\n" := by decide

/-- C7: when option parsing succeeded, the process exit status is 0 if
and only if the front end produced a tree; in particular a run over a
tree recovered from source errors still exits 0, and only a front end
that cannot produce any tree yields a non-zero status. -/
theorem C7_thm (opts : CmdOpts) (outcome : ParseOutcome)
    (h : opts.argsOk = true) :
    ((mainRun opts outcome).exitCode = 0 ↔ outcome ≠ ParseOutcome.parseFailure)
    ∧ (∀ (mainFile : String) (t : DeclTree),
        (mainRun opts (.tree mainFile t true)).exitCode = 0) := by
  constructor
  · cases outcome <;> simp [mainRun, h, toolRun]
  · intro mainFile t
    simp [mainRun, h, toolRun]

/-- C7, witness: a completed run over the scenario tree (with recovered
errors) exits 0. -/
theorem C7_witness :
    (((mainRun ⟨true, ["test.c"], false, false⟩
          (.tree "test.c" scenarioTree true)).exitCode = 0
        ↔ ParseOutcome.tree "test.c" scenarioTree true ≠ ParseOutcome.parseFailure)
      ∧ (∀ (mainFile : String) (t : DeclTree),
          (mainRun ⟨true, ["test.c"], false, false⟩
              (.tree mainFile t true)).exitCode = 0)) :=
  C7_thm ⟨true, ["test.c"], false, false⟩ (.tree "test.c" scenarioTree true) rfl

/-- C8, counterexample: with valid options naming `test.c`, a fatal
front-end failure still leaves the report header and the zero-count
total line on standard output — the claim's "no report header … no total
line" fails. -/
theorem C8_cex :
    (mainRun ⟨true, ["test.c"], false, false⟩ ParseOutcome.parseFailure).stdOut
        = "=== Declarations from test.c ===\n\n\n=== Total: 0 items ===\n"
    ∧ (mainRun ⟨true, ["test.c"], false, false⟩ ParseOutcome.parseFailure).stdOut ≠ ""
    ∧ (mainRun ⟨true, ["test.c"], false, false⟩ ParseOutcome.parseFailure).exitCode ≠ 0 := by
  decide

/-- C8 (amended): when option parsing fails nothing is printed to
standard output and the exit status is non-zero; when the front end
fails after options parsed, the exit status is non-zero and no record
line is printed, but the report header and a zero-count total line are
still printed to standard output. -/
theorem C8_thm (opts : CmdOpts) :
    (opts.argsOk = false →
        (mainRun opts ParseOutcome.parseFailure).stdOut = ""
        ∧ (mainRun opts ParseOutcome.parseFailure).exitCode = 1)
    ∧ (opts.argsOk = true →
        (mainRun opts ParseOutcome.parseFailure).exitCode ≠ 0
        ∧ (mainRun opts ParseOutcome.parseFailure).stdOut
            = headerText opts.sources ++ "\n=== Total: 0 items ===\n") := by
  constructor
  · intro h
    constructor <;> simp [mainRun, h]
  · intro h
    constructor
    · simp [mainRun, h, toolRun]
    · have hout : (mainRun opts ParseOutcome.parseFailure).stdOut
          = mainOutput opts.sources [] opts.definitionsOnly opts.showMacros := by
        simp [mainRun, h, toolRun]
      rw [hout]
      show headerText opts.sources ++ "" ++ totalText [] = _
      rw [String.append_empty]
      congr 1

/-- C8, witness: both branches of the amended statement at concrete
options. -/
theorem C8_witness :
    ((mainRun ⟨false, ["test.c"], false, false⟩ ParseOutcome.parseFailure).stdOut = ""
      ∧ (mainRun ⟨false, ["test.c"], false, false⟩ ParseOutcome.parseFailure).exitCode = 1)
    ∧ ((mainRun ⟨true, ["test.c"], false, false⟩ ParseOutcome.parseFailure).exitCode ≠ 0
      ∧ (mainRun ⟨true, ["test.c"], false, false⟩ ParseOutcome.parseFailure).stdOut
          = headerText ["test.c"] ++ "\n=== Total: 0 items ===\n") :=
  ⟨(C8_thm ⟨false, ["test.c"], false, false⟩).1 rfl,
   (C8_thm ⟨true, ["test.c"], false, false⟩).2 rfl⟩

/-- C9: for every input and every setting of the other arguments, the
run with the macro flag set produces a result — standard output bytes
and exit status — identical to the run with the flag unset. -/
theorem C9_thm (argsOk : Bool) (sources : List String) (definitionsOnly : Bool)
    (outcome : ParseOutcome) :
    mainRun ⟨argsOk, sources, definitionsOnly, true⟩ outcome
      = mainRun ⟨argsOk, sources, definitionsOnly, false⟩ outcome := rfl

/-- C9, witness: the flag is observably inert on the scenario run. -/
theorem C9_witness :
    mainRun ⟨true, ["test.c"], false, true⟩ (.tree "test.c" scenarioTree false)
      = mainRun ⟨true, ["test.c"], false, false⟩ (.tree "test.c" scenarioTree false) :=
  C9_thm true ["test.c"] false (.tree "test.c" scenarioTree false)

/-- C10: a field node with an empty name renders as the field's type
text, a space, the empty name and a semicolon — `<type> ;` — with no
`<anonymous>` placeholder, unlike the record and enum renderers. -/
theorem C10_thm (type : String) :
    getDeclarationString (.field type "") = type ++ " ;"
    ∧ getDeclarationString (.record .structTag "") = "struct <anonymous>;"
    ∧ getDeclarationString (.enum "") = "enum <anonymous>;" := by
  refine ⟨?_, rfl, rfl⟩
  show type ++ " " ++ "" ++ ";" = type ++ " ;"
  rw [String.append_empty, String.append_assoc]
  congr 1

/-- C10, witness: the field renderer on an anonymous bitfield of type
`int`. -/
theorem C10_witness :
    getDeclarationString (.field "int" "") = "int" ++ " ;"
    ∧ getDeclarationString (.record .structTag "") = "struct <anonymous>;"
    ∧ getDeclarationString (.enum "") = "enum <anonymous>;" :=
  C10_thm "int"

end Decls
